import Mathlib

/-!
Shallow embedding of the widget ownership and lifetime-tracking layer of the
fltk-rs wrapper crate (src/fltk, src/fltk-derive, src/fltk-sys).

Conventions of the embedding:
* Foreign pointers are modelled as `Nat`, with `0` standing for the null
  pointer.
* A call across the foreign-function boundary is recorded as a `NativeCall`
  value; an operation's effect is the list of native calls it issues, in
  order.
* A Rust `assert!` failure (a panic/abort) is modelled as `Except.error
  Panic.assertFailed`; operations whose source contains no `assert!` are
  total functions.
* `debug_assert!` guards in the source are compiled out of release builds
  and are not modelled.
* Definitions marked `Modelled from the spec:` embed repository code that is
  generated by the WidgetBase derive macro, whose source is not part of the
  given tree; they follow spec.md sections 3, 4 and 7.
-/

namespace FltkSpec

/-- Reason an operation aborts instead of returning: a failed `assert!`. -/
inductive Panic where
  | assertFailed
  deriving DecidableEq, Repr

/-- One call across the foreign-function boundary, with its arguments. -/
inductive NativeCall where
  | dialGetAngle1 (ptr : Nat)
  | dialSetAngle1 (ptr : Nat) (a : Nat)
  | dialSetAngle2 (ptr : Nat) (a : Nat)
  | scrollScrollTo (ptr : Nat) (x y : Nat)
  | nativeFileChooserDelete (ptr : Nat)
  | fileChooserDelete (ptr : Nat)
  | flDrawImage (x y w h d : Int)
  deriving DecidableEq, Repr

/-- A handle to a native dial widget (`Dial`, `LineDial`, `FillDial` in
src/fltk/src/valuator.rs): the `_inner` pointer, the liveness answer its
`_tracker` would give to `was_deleted()`, and the native widget's two
angles (mirrored here so that the effect of the setter calls is visible). -/
structure DialHandle where
  inner : Nat
  deleted : Bool
  angle1 : Nat
  angle2 : Nat
  deriving DecidableEq, Repr

/-- `Dial::angles` (src/fltk/src/valuator.rs lines 51-55): reads
`Fl_Dial_angle1` twice (the source reads angle1 for both components) with no
`was_deleted` assertion. -/
def Dial.angles (d : DialHandle) : (Nat × Nat) × List NativeCall :=
  ((d.angle1, d.angle1), [NativeCall.dialGetAngle1 d.inner, NativeCall.dialGetAngle1 d.inner])

/-- `Dial::set_angles` (src/fltk/src/valuator.rs lines 58-65): issues
`Fl_Dial_set_angle1` only when `angle1 <= 360` and `Fl_Dial_set_angle2` only
when `angle2 <= 360`; contains no `was_deleted` assertion, so it is a total
function of the handle. -/
def Dial.set_angles (d : DialHandle) (a1 a2 : Nat) : DialHandle × List NativeCall :=
  let s1 : DialHandle × List NativeCall :=
    if a1 ≤ 360 then
      (DialHandle.mk d.inner d.deleted a1 d.angle2, [NativeCall.dialSetAngle1 d.inner a1])
    else (d, [])
  let s2 : DialHandle × List NativeCall :=
    if a2 ≤ 360 then
      (DialHandle.mk s1.1.inner s1.1.deleted s1.1.angle1 a2, [NativeCall.dialSetAngle2 d.inner a2])
    else (s1.1, [])
  (s2.1, s1.2 ++ s2.2)

/-- `LineDial::set_angles` (src/fltk/src/valuator.rs lines 84-91): same body
as `Dial::set_angles` (the pointer is cast to `*mut Fl_Dial` at the call). -/
def LineDial.set_angles (d : DialHandle) (a1 a2 : Nat) : DialHandle × List NativeCall :=
  let s1 : DialHandle × List NativeCall :=
    if a1 ≤ 360 then
      (DialHandle.mk d.inner d.deleted a1 d.angle2, [NativeCall.dialSetAngle1 d.inner a1])
    else (d, [])
  let s2 : DialHandle × List NativeCall :=
    if a2 ≤ 360 then
      (DialHandle.mk s1.1.inner s1.1.deleted s1.1.angle1 a2, [NativeCall.dialSetAngle2 d.inner a2])
    else (s1.1, [])
  (s2.1, s1.2 ++ s2.2)

/-- `FillDial::set_angles` (src/fltk/src/valuator.rs lines 332-339): same
body as `Dial::set_angles`. -/
def FillDial.set_angles (d : DialHandle) (a1 a2 : Nat) : DialHandle × List NativeCall :=
  let s1 : DialHandle × List NativeCall :=
    if a1 ≤ 360 then
      (DialHandle.mk d.inner d.deleted a1 d.angle2, [NativeCall.dialSetAngle1 d.inner a1])
    else (d, [])
  let s2 : DialHandle × List NativeCall :=
    if a2 ≤ 360 then
      (DialHandle.mk s1.1.inner s1.1.deleted s1.1.angle1 a2, [NativeCall.dialSetAngle2 d.inner a2])
    else (s1.1, [])
  (s2.1, s1.2 ++ s2.2)

/-- A handle to a native `Scroll` group (src/fltk/src/group.rs): the
`_inner` pointer and the liveness answer of its tracker. -/
structure ScrollHandle where
  inner : Nat
  deleted : Bool
  deriving DecidableEq, Repr

/-- `Scroll::scroll_to` (src/fltk/src/group.rs lines 110-121): asserts
`!self.was_deleted()` before issuing the foreign call, aborting on a deleted
handle. -/
def Scroll.scroll_to (s : ScrollHandle) (a b : Nat) : Except Panic (List NativeCall) :=
  if s.deleted then Except.error Panic.assertFailed
  else Except.ok [NativeCall.scrollScrollTo s.inner a b]

/-- Claim C1: every public operation that mutates the widget or dereferences
its native pointer asserts `was_deleted()` is false before the pointer
reaches a foreign call. The code violates this: `Dial::set_angles` contains
no such assertion and, on a handle whose tracker already reports
`was_deleted() == true`, still passes the native pointer to
`Fl_Dial_set_angle1` and `Fl_Dial_set_angle2` and returns normally, while an
operation following the claimed pattern (`Scroll::scroll_to`) aborts on the
same liveness state. -/
theorem c1_dial_set_angles_without_liveness_check :
    (DialHandle.mk 5 true 0 0).deleted = true ∧
    Dial.set_angles (DialHandle.mk 5 true 0 0) 90 180 =
      (DialHandle.mk 5 true 90 180,
        [NativeCall.dialSetAngle1 5 90, NativeCall.dialSetAngle2 5 180]) ∧
    Dial.angles (DialHandle.mk 5 true 0 0) =
      ((0, 0), [NativeCall.dialGetAngle1 5, NativeCall.dialGetAngle1 5]) ∧
    Scroll.scroll_to (ScrollHandle.mk 5 true) 0 0 = Except.error Panic.assertFailed :=
  ⟨rfl, rfl, rfl, rfl⟩

/-- The `FileDialog` wrapper (src/fltk/src/dialog.rs lines 10-13): owns a
`*mut Fl_Native_File_Chooser`; `inner = 0` models a cleared (null) pointer. -/
structure FileDialog where
  inner : Nat
  deriving DecidableEq, Repr

/-- `FileDialog::new` (src/fltk/src/dialog.rs lines 67-75), as a function of
the pointer the native `Fl_Native_File_Chooser_new` call returned: asserts
the pointer is non-null and wraps it. -/
def FileDialog.new (ret : Nat) : Except Panic FileDialog :=
  if ret = 0 then Except.error Panic.assertFailed else Except.ok (FileDialog.mk ret)

/-- `impl Drop for FileDialog` (src/fltk/src/dialog.rs lines 212-219):
issues `Fl_Native_File_Chooser_delete` only when the stored pointer is
non-null, then clears the pointer. Returns the post-drop state and the
native calls issued. -/
def FileDialog.drop (d : FileDialog) : FileDialog × List NativeCall :=
  if d.inner ≠ 0 then (FileDialog.mk 0, [NativeCall.nativeFileChooserDelete d.inner])
  else (d, [])

/-- The `FileChooser` wrapper (src/fltk/src/dialog.rs lines 532-534): owns a
`*mut Fl_File_Chooser`. -/
structure FileChooser where
  inner : Nat
  deriving DecidableEq, Repr

/-- `FileChooser::new` (src/fltk/src/dialog.rs lines 552-566), as a function
of the pointer returned by `Fl_File_Chooser_new`: asserts non-null. -/
def FileChooser.new (ret : Nat) : Except Panic FileChooser :=
  if ret = 0 then Except.error Panic.assertFailed else Except.ok (FileChooser.mk ret)

/-- `impl Drop for FileChooser` (src/fltk/src/dialog.rs lines 1042-1046):
issues `Fl_File_Chooser_delete` unconditionally, with no null check and no
clearing of the pointer. -/
def FileChooser.dropCalls (c : FileChooser) : List NativeCall :=
  [NativeCall.fileChooserDelete c.inner]

/-- `FileChooser::delete` (src/fltk/src/dialog.rs lines 571-573): takes
`dlg` by value and calls `Fl_File_Chooser_delete(dlg._inner)`; because `dlg`
is consumed and not forgotten, its `Drop` impl then runs at the end of the
function, so the drop's native calls follow the explicit one. -/
def FileChooser.delete (c : FileChooser) : List NativeCall :=
  NativeCall.fileChooserDelete c.inner :: FileChooser.dropCalls c

/-- Claim C3: wrapper-side teardown issues the native deletion request at
most once for every ordering of drops and explicit deletion calls. The code
violates this for `FileChooser`: `FileChooser::delete` issues
`Fl_File_Chooser_delete` on the same pointer twice (the explicit call, then
the consumed value's unconditional `Drop`), while `FileDialog` follows the
claimed discipline (its `Drop` clears the pointer, so a second teardown
issues no further request). -/
theorem c3_file_chooser_delete_issues_two_requests :
    FileChooser.delete (FileChooser.mk 7) =
      [NativeCall.fileChooserDelete 7, NativeCall.fileChooserDelete 7] ∧
    (FileDialog.drop (FileDialog.mk 7)).2 = [NativeCall.nativeFileChooserDelete 7] ∧
    (FileDialog.drop (FileDialog.drop (FileDialog.mk 7)).1).2 = [] :=
  ⟨rfl, rfl, rfl⟩

/-- The `HelpDialog` wrapper (src/fltk/src/dialog.rs lines 352-355). -/
structure HelpDialog where
  inner : Nat
  deriving DecidableEq, Repr

/-- `HelpDialog::default` (src/fltk/src/dialog.rs lines 359-367), as a
function of the pointer returned by `Fl_Help_Dialog_new`: asserts
non-null. -/
def HelpDialog.default (ret : Nat) : Except Panic HelpDialog :=
  if ret = 0 then Except.error Panic.assertFailed else Except.ok (HelpDialog.mk ret)

/-- The `Offscreen` wrapper (src/fltk/src/draw.rs lines 43-46). -/
structure Offscreen where
  inner : Nat
  deriving DecidableEq, Repr

/-- `Offscreen::new` (src/fltk/src/draw.rs lines 53-64), as a function of
the pointer returned by `Fl_create_offscreen`: returns `None` when the
pointer is null, `Some` wrapper otherwise; it contains no `assert!`, so it
never aborts. -/
def Offscreen.new (ret : Nat) : Except Panic (Option Offscreen) :=
  Except.ok (if ret = 0 then none else some (Offscreen.mk ret))

/-- `Offscreen::is_valid` (src/fltk/src/draw.rs lines 99-103): asserts the
inner pointer is non-null, then returns `!self._inner.is_null()`. -/
def Offscreen.is_valid (o : Offscreen) : Except Panic Bool :=
  if o.inner = 0 then Except.error Panic.assertFailed
  else Except.ok (decide (o.inner ≠ 0))

/-- Claim C9: `Offscreen::is_valid` never returns `false`: it aborts when
the inner pointer is null and returns `true` in every non-aborting
execution. -/
theorem c9_offscreen_is_valid_never_false (o : Offscreen) :
    (o.inner = 0 → Offscreen.is_valid o = Except.error Panic.assertFailed) ∧
    (o.inner ≠ 0 → Offscreen.is_valid o = Except.ok true) ∧
    Offscreen.is_valid o ≠ Except.ok false := by
  unfold Offscreen.is_valid
  by_cases h : o.inner = 0 <;> simp [h]

/-- Witness for C9 at the concrete handles with pointers 0 and 3. -/
theorem c9_offscreen_is_valid_never_false_witness :
    Offscreen.is_valid (Offscreen.mk 0) = Except.error Panic.assertFailed ∧
    Offscreen.is_valid (Offscreen.mk 3) = Except.ok true :=
  ⟨(c9_offscreen_is_valid_never_false (Offscreen.mk 0)).1 rfl,
   (c9_offscreen_is_valid_never_false (Offscreen.mk 3)).2.1 (by decide)⟩

/-- A lightweight handle to a native widget: its foreign pointer. -/
structure WidgetHandle where
  ptr : Nat
  deriving DecidableEq, Repr

/-- Modelled from the spec: `from_widget_ptr`, generated for every widget
struct by the WidgetBase derive macro, whose source is not in the given
tree. Per spec.md sections 4.1 and 7, constructing a handle from a null
foreign pointer is fatal (aborts, never yields a live handle); from a
non-null pointer it wraps the pointer, sharing the liveness state keyed by
that native widget. -/
def from_widget_ptr (p : Nat) : Except Panic WidgetHandle :=
  if p = 0 then Except.error Panic.assertFailed else Except.ok (WidgetHandle.mk p)

/-- `Group::current` (src/fltk/src/group.rs lines 21-27), as a function of
the pointer returned by `Fl_Group_current`: asserts non-null, then wraps
the pointer via `from_widget_ptr`. -/
def Group.current (ret : Nat) : Except Panic WidgetHandle :=
  if ret = 0 then Except.error Panic.assertFailed else from_widget_ptr ret

/-- `Wizard::current_widget` (src/fltk/src/group.rs lines 260-267): asserts
the wizard itself is alive, then passes the pointer returned by
`Fl_Wizard_value` straight to `Widget::from_widget_ptr` with no null check
of its own. -/
def Wizard.current_widget (deleted : Bool) (ret : Nat) : Except Panic WidgetHandle :=
  if deleted then Except.error Panic.assertFailed else from_widget_ptr ret

/-- `Scroll::scrollbar` (src/fltk/src/group.rs lines 78-85): asserts the
scroll group is alive, asserts the pointer returned by
`Fl_Scroll_scrollbar` is non-null, then wraps it via `from_widget_ptr`. -/
def Scroll.scrollbar (s : ScrollHandle) (ret : Nat) : Except Panic WidgetHandle :=
  if s.deleted then Except.error Panic.assertFailed
  else if ret = 0 then Except.error Panic.assertFailed
  else from_widget_ptr ret

/-- Claim C4 (amended): `FileDialog::new`, `HelpDialog::default`,
`FileChooser::new` and `Group::current` abort when the native call returned
a null pointer, while `Offscreen::new` instead returns `None` without
aborting; in all cases a successfully constructed wrapper holds a non-null
inner pointer. -/
theorem c4_constructor_null_handling (ret : Nat) :
    (ret = 0 →
      FileDialog.new ret = Except.error Panic.assertFailed ∧
      HelpDialog.default ret = Except.error Panic.assertFailed ∧
      FileChooser.new ret = Except.error Panic.assertFailed ∧
      Group.current ret = Except.error Panic.assertFailed ∧
      Offscreen.new ret = Except.ok none) ∧
    (∀ d : FileDialog, FileDialog.new ret = Except.ok d → d.inner ≠ 0) ∧
    (∀ d : HelpDialog, HelpDialog.default ret = Except.ok d → d.inner ≠ 0) ∧
    (∀ c : FileChooser, FileChooser.new ret = Except.ok c → c.inner ≠ 0) ∧
    (∀ h : WidgetHandle, Group.current ret = Except.ok h → h.ptr ≠ 0) ∧
    (∀ o : Offscreen, Offscreen.new ret = Except.ok (some o) → o.inner ≠ 0) := by
  by_cases h : ret = 0
  · subst h
    exact ⟨fun _ => ⟨rfl, rfl, rfl, rfl, rfl⟩,
      fun d hd => by simp [FileDialog.new] at hd,
      fun d hd => by simp [HelpDialog.default] at hd,
      fun c hc => by simp [FileChooser.new] at hc,
      fun w hw => by simp [Group.current] at hw,
      fun o ho => by simp [Offscreen.new] at ho⟩
  · refine ⟨fun h0 => absurd h0 h, fun d hd => ?_, fun d hd => ?_, fun c hc => ?_,
      fun w hw => ?_, fun o ho => ?_⟩
    · simp [FileDialog.new, h] at hd
      subst hd; simpa using h
    · simp [HelpDialog.default, h] at hd
      subst hd; simpa using h
    · simp [FileChooser.new, h] at hc
      subst hc; simpa using h
    · simp [Group.current, from_widget_ptr, h] at hw
      subst hw; simpa using h
    · simp [Offscreen.new, h] at ho
      subst ho; simpa using h

/-- Counterexample for Claim C4 as stated: `Offscreen::new` is a
constructor obtaining a fresh native object (from `Fl_create_offscreen`),
yet when the returned pointer is null it does not abort; it returns
normally with `None`. -/
theorem c4_offscreen_new_null_returns_none :
    Offscreen.new 0 = Except.ok none := rfl

/-- Witness for the amended C4 at the null pointer and at pointer 5. -/
theorem c4_constructor_null_handling_witness :
    FileDialog.new 0 = Except.error Panic.assertFailed ∧
    Offscreen.new 0 = Except.ok none ∧
    (FileDialog.mk 5).inner ≠ 0 :=
  ⟨((c4_constructor_null_handling 0).1 rfl).1,
   ((c4_constructor_null_handling 0).1 rfl).2.2.2.2,
   (c4_constructor_null_handling 5).2.1 (FileDialog.mk 5) rfl⟩

/-- Claim C5: constructing a handle from an existing foreign pointer aborts
or fails immediately when the pointer is null and never yields a handle, in
particular not one reporting itself alive: this holds for
`from_widget_ptr` itself and for the call sites `Wizard::current_widget`
(which relies on `from_widget_ptr`) and `Scroll::scrollbar` (which also
asserts at the call site). -/
theorem c5_null_pointer_construction_aborts (p : Nat) (s : ScrollHandle) (b : Bool) :
    from_widget_ptr 0 = Except.error Panic.assertFailed ∧
    (∀ h : WidgetHandle, from_widget_ptr p = Except.ok h → p ≠ 0 ∧ h.ptr = p) ∧
    (∀ h : WidgetHandle, Wizard.current_widget b 0 ≠ Except.ok h) ∧
    (∀ h : WidgetHandle, Scroll.scrollbar s 0 ≠ Except.ok h) := by
  refine ⟨rfl, fun h hx => ?_, fun h hx => ?_, fun h hx => ?_⟩
  · by_cases hp : p = 0
    · simp [from_widget_ptr, hp] at hx
    · simp [from_widget_ptr, hp] at hx
      subst hx
      exact ⟨hp, rfl⟩
  · cases b <;> simp [Wizard.current_widget, from_widget_ptr] at hx
  · by_cases hd : s.deleted <;> simp [Scroll.scrollbar, from_widget_ptr, hd] at hx

/-- Witness for C5 at pointer 4, a live scroll handle and a live wizard. -/
theorem c5_null_pointer_construction_aborts_witness :
    from_widget_ptr 0 = Except.error Panic.assertFailed ∧
    ((4 : Nat) ≠ 0 ∧ (WidgetHandle.mk 4).ptr = 4) ∧
    Wizard.current_widget false 0 ≠ Except.ok (WidgetHandle.mk 1) :=
  ⟨(c5_null_pointer_construction_aborts 4 (ScrollHandle.mk 2 false) false).1,
   (c5_null_pointer_construction_aborts 4 (ScrollHandle.mk 2 false) false).2.1
     (WidgetHandle.mk 4) rfl,
   (c5_null_pointer_construction_aborts 4 (ScrollHandle.mk 2 false) false).2.2.1
     (WidgetHandle.mk 1)⟩

/-- Modelled from the spec: the shared liveness state. Per spec.md section
3, one `LivenessTracker` exists per distinct native widget creation and is
shared by every handle copy referring to that widget, so liveness is keyed
by the native widget, not by the handle copy. The world is the set of
native widget pointers whose destruction notification has fired. -/
abbrev LivenessWorld : Type := List Nat

/-- Modelled from the spec: `was_deleted()` consults the shared tracker of
the handle's native widget. -/
def wasDeleted (w : LivenessWorld) (h : WidgetHandle) : Bool :=
  decide (h.ptr ∈ w)

/-- An event affecting liveness: the native-side destruction notification
for one widget, or any other native operation (which per spec.md section 5
never writes the flag). -/
inductive LiveEvent where
  | destroy (wid : Nat)
  | nativeOp
  deriving DecidableEq, Repr

/-- Modelled from the spec: the destruction notification marks the widget
destroyed; no event ever clears the mark. -/
def applyEvent (w : LivenessWorld) : LiveEvent → LivenessWorld
  | LiveEvent.destroy wid => wid :: w
  | LiveEvent.nativeOp => w

/-- Run a sequence of liveness events. -/
def applyEvents (w : LivenessWorld) (es : List LiveEvent) : LivenessWorld :=
  es.foldl applyEvent w

/-- Helper: no event removes a widget from the destroyed set. -/
theorem mem_applyEvents (w : LivenessWorld) (es : List LiveEvent) (p : Nat)
    (hmem : p ∈ w) : p ∈ applyEvents w es := by
  induction es generalizing w with
  | nil => exact hmem
  | cons e es ih =>
    cases e with
    | destroy wid => exact ih (wid :: w) (List.mem_cons_of_mem wid hmem)
    | nativeOp => exact ih w hmem

/-- Claim C2: any two handle copies for the same native widget (including a
copy obtained later through `from_widget_ptr`) consult one shared liveness
state: they agree on `was_deleted()` in every world, and once either
observes `was_deleted() == true`, every copy observes `true` in every
later world. -/
theorem c2_handles_share_liveness (h1 h2 : WidgetHandle) (hp : h1.ptr = h2.ptr)
    (w : LivenessWorld) (es : List LiveEvent) :
    wasDeleted w h1 = wasDeleted w h2 ∧
    (wasDeleted w h1 = true → wasDeleted (applyEvents w es) h2 = true) ∧
    (∀ h3 : WidgetHandle, from_widget_ptr h1.ptr = Except.ok h3 →
      wasDeleted w h3 = wasDeleted w h1) := by
  refine ⟨by simp [wasDeleted, hp], fun hd => ?_, fun h3 hx => ?_⟩
  · simp only [wasDeleted, decide_eq_true_eq] at hd ⊢
    exact mem_applyEvents w es h2.ptr (hp ▸ hd)
  · by_cases hz : h1.ptr = 0
    · simp [from_widget_ptr, hz] at hx
    · simp [from_widget_ptr, hz] at hx
      subst hx
      rfl

/-- Witness for C2: two copies of the handle to widget 3, in the world
where widget 3 was destroyed, under one further native operation. -/
theorem c2_handles_share_liveness_witness :
    wasDeleted [3] (WidgetHandle.mk 3) = wasDeleted [3] (WidgetHandle.mk 3) ∧
    wasDeleted (applyEvents [3] [LiveEvent.nativeOp]) (WidgetHandle.mk 3) = true :=
  ⟨(c2_handles_share_liveness (WidgetHandle.mk 3) (WidgetHandle.mk 3) rfl [3] []).1,
   (c2_handles_share_liveness (WidgetHandle.mk 3) (WidgetHandle.mk 3) rfl [3]
      [LiveEvent.nativeOp]).2.1 rfl⟩

/-- An event seen by one `LivenessTracker`: the destruction notification
installed via `Fl_Widget_set_deleter` fires, or any other operation runs. -/
inductive TrackerEvent where
  | destroyNotify
  | otherOp
  deriving DecidableEq, Repr

/-- Modelled from the spec: the `is_destroyed` flag of one tracker. Only
the destruction notification writes it, setting it to `true`; every other
operation leaves it unchanged (spec.md sections 3 and 5). -/
def trackerStep (b : Bool) : TrackerEvent → Bool
  | TrackerEvent.destroyNotify => true
  | TrackerEvent.otherOp => b

/-- Run a sequence of tracker events over the `is_destroyed` flag. -/
def trackerRun (b : Bool) (es : List TrackerEvent) : Bool :=
  es.foldl trackerStep b

/-- Helper: a flag that is already `true` stays `true` under any events. -/
theorem trackerRun_true (es : List TrackerEvent) : trackerRun true es = true := by
  induction es with
  | nil => rfl
  | cons e es ih => cases e <;> exact ih

/-- Claim C6: the `is_destroyed` flag only transitions `false → true`,
never the reverse: once `was_deleted()` has returned `true`, it returns
`true` after every later event sequence; and starting from `false` the
flag becomes `true` exactly when the destruction notification fired. -/
theorem c6_destroyed_flag_monotone (b : Bool) (es later : List TrackerEvent) :
    (trackerRun b es = true → trackerRun (trackerRun b es) later = true) ∧
    (trackerRun false es = true ↔ TrackerEvent.destroyNotify ∈ es) := by
  constructor
  · intro hd
    rw [hd]
    exact trackerRun_true later
  · induction es with
    | nil => simp [trackerRun]
    | cons e es ih =>
      cases e with
      | destroyNotify =>
        simp only [trackerRun, List.foldl_cons, trackerStep, List.mem_cons, true_or,
          iff_true]
        exact trackerRun_true es
      | otherOp =>
        simp only [trackerRun, List.foldl_cons, trackerStep, List.mem_cons] at ih ⊢
        constructor
        · intro hx
          exact Or.inr (ih.mp hx)
        · intro hx
          rcases hx with hx | hx
          · exact absurd hx (by simp)
          · exact ih.mpr hx

/-- Witness for C6: the flag set by a destruction notification stays set
under a later unrelated operation. -/
theorem c6_destroyed_flag_monotone_witness :
    trackerRun (trackerRun false [TrackerEvent.destroyNotify]) [TrackerEvent.otherOp] = true ∧
    trackerRun false [TrackerEvent.destroyNotify] = true :=
  ⟨(c6_destroyed_flag_monotone false [TrackerEvent.destroyNotify]
      [TrackerEvent.otherOp]).1 (by decide),
   (c6_destroyed_flag_monotone false [TrackerEvent.destroyNotify] []).2.mpr
      (by decide)⟩

/-- The native side as seen at construction time: for each allocated widget
pointer, whether the destruction-notification callback
(`Fl_Widget_set_deleter`, declared in src/fltk-sys/src/widget.rs lines
277-282) has been installed on it. -/
abbrev WidgetWorld : Type := List (Nat × Bool)

/-- Whether the destruction callback is installed on widget `p` (`none`
when no widget with pointer `p` is known). -/
def deleterInstalled (w : WidgetWorld) (p : Nat) : Option Bool :=
  Option.map (fun q : Nat × Bool => q.2) (List.find? (fun q : Nat × Bool => q.1 == p) w)

/-- Modelled from the spec: widget construction, generated by the
WidgetBase derive macro (not in the given tree). Per spec.md section 4.1 it
obtains a fresh non-null pointer from the toolkit and atomically registers
the liveness tracker by installing the destruction callback on the native
object before returning; besides the allocation, installing that callback
is its only side effect on the native world. -/
def constructWidget (w : WidgetWorld) : WidgetWorld × WidgetHandle :=
  let fresh := w.length + 1
  ((fresh, true) :: w, WidgetHandle.mk fresh)

/-- Claim C7: when construction returns, the destruction callback is
already installed on the new widget (so no window of unobserved destruction
exists once a handle exists), the handle is non-null, and no other
widget's state was touched: construction's only side effect besides the
allocation is installing the callback. -/
theorem c7_deleter_installed_at_construction (w : WidgetWorld) :
    deleterInstalled (constructWidget w).1 (constructWidget w).2.ptr = some true ∧
    (constructWidget w).2.ptr ≠ 0 ∧
    ∀ q : Nat, q ≠ (constructWidget w).2.ptr →
      deleterInstalled (constructWidget w).1 q = deleterInstalled w q := by
  refine ⟨?_, by simp [constructWidget], fun q hq => ?_⟩
  · simp [constructWidget, deleterInstalled]
  · simp only [constructWidget] at hq ⊢
    have hbeq : (w.length + 1 == q) = false := beq_eq_false_iff_ne.mpr (Ne.symm hq)
    simp [deleterInstalled, List.find?, hbeq]

/-- Witness for C7: constructing in the empty world installs the callback
on the new widget and leaves the (absent) widget 0 untouched. -/
theorem c7_deleter_installed_at_construction_witness :
    deleterInstalled (constructWidget []).1 (constructWidget []).2.ptr = some true ∧
    deleterInstalled (constructWidget []).1 0 = deleterInstalled [] 0 :=
  ⟨(c7_deleter_installed_at_construction []).1,
   (c7_deleter_installed_at_construction []).2.2 0 (by decide)⟩

/-- Two's-complement wrap of an integer into the `i32` range, the result of
an overflowing Rust `i32` operation in release mode. -/
def wrap32 (n : Int) : Int := (n + 2 ^ 31) % 2 ^ 32 - 2 ^ 31

/-- The value of `v as usize` for an `i32` value `v` on a 64-bit target:
negative values wrap to `2 ^ 64 + v`. -/
def i32ToUsize (n : Int) : Nat := (n % 2 ^ 64).toNat

/-- The `ColorDepth` enum of the wrapper crate (its definition lives
outside the given tree; the variant values are fixed by the image API:
L8 = 1, La8 = 2, Rgb8 = 3, Rgba8 = 4). -/
inductive ColorDepth where
  | l8
  | la8
  | rgb8
  | rgba8
  deriving DecidableEq, Repr

/-- The numeric value of `depth as i32`. -/
def ColorDepth.toI32 : ColorDepth → Int
  | ColorDepth.l8 => 1
  | ColorDepth.la8 => 2
  | ColorDepth.rgb8 => 3
  | ColorDepth.rgba8 => 4

/-- The error kinds of the wrapper crate used by the embedded functions
(the full enum lives outside the given tree). -/
inductive FltkErrorKind where
  | imageFormatError
  | failedOperation
  | resourceNotFound
  deriving DecidableEq, Repr

/-- The `FltkError` variant used by the embedded functions. -/
inductive FltkError where
  | internal (kind : FltkErrorKind)
  deriving DecidableEq, Repr

/-- The `sz` computed by `draw_image`: `(w * h * depth as i32) as usize`,
with `i32` arithmetic wrapping and the sign-extending cast to `usize`. -/
def imageDataSize (w h : Int) (depth : ColorDepth) : Nat :=
  i32ToUsize (wrap32 (wrap32 (w * h) * ColorDepth.toI32 depth))

/-- `draw::draw_image` (src/fltk/src/draw.rs lines 799-815), as a function
of the data slice's length: when `sz > data.len()` it returns
`Err(FltkError::Internal(FltkErrorKind::ImageFormatError))` before any
foreign call; otherwise it issues `Fl_draw_image` and returns `Ok(())`. -/
def draw_image (dataLen : Nat) (x y w h : Int) (depth : ColorDepth) :
    Except FltkError (List NativeCall) :=
  let sz := imageDataSize w h depth
  if dataLen < sz then Except.error (FltkError.internal FltkErrorKind.imageFormatError)
  else Except.ok [NativeCall.flDrawImage x y w h (ColorDepth.toI32 depth)]

/-- Claim C8: when `w * h * (depth as i32)` (as the code computes it, in
wrapping `i32` arithmetic cast to `usize`) exceeds the data length,
`draw_image` returns `Err(FltkError::Internal(ImageFormatError))` and
issues no native draw call; otherwise it issues the native draw call and
returns `Ok`. -/
theorem c8_draw_image_bounds_guard (dataLen : Nat) (x y w h : Int) (depth : ColorDepth) :
    (imageDataSize w h depth > dataLen →
      draw_image dataLen x y w h depth =
        Except.error (FltkError.internal FltkErrorKind.imageFormatError)) ∧
    (imageDataSize w h depth ≤ dataLen →
      draw_image dataLen x y w h depth =
        Except.ok [NativeCall.flDrawImage x y w h (ColorDepth.toI32 depth)]) := by
  constructor
  · intro hgt
    simp [draw_image, hgt]
  · intro hle
    simp [draw_image, Nat.not_lt_of_le hle]

/-- Witness for C8: a 1 by 1 single-channel image needs 1 byte, so a
0-byte slice is rejected and a 2-byte slice is drawn. -/
theorem c8_draw_image_bounds_guard_witness :
    draw_image 0 0 0 1 1 ColorDepth.l8 =
      Except.error (FltkError.internal FltkErrorKind.imageFormatError) ∧
    draw_image 2 0 0 1 1 ColorDepth.l8 =
      Except.ok [NativeCall.flDrawImage 0 0 1 1 1] :=
  ⟨(c8_draw_image_bounds_guard 0 0 0 1 1 ColorDepth.l8).1 (by decide),
   (c8_draw_image_bounds_guard 2 0 0 1 1 ColorDepth.l8).2 (by decide)⟩

/-- Claim C10: for each of `Dial::set_angles`, `LineDial::set_angles` and
`FillDial::set_angles`, the native set-angle call for a component is issued
exactly when that component is at most 360; a component greater than 360
produces no native call for it and leaves that native angle unchanged. -/
theorem c10_dial_angle_guard_360 (d : DialHandle) (a1 a2 : Nat) :
    (a1 ≤ 360 →
      (Dial.set_angles d a1 a2).1.angle1 = a1 ∧
      NativeCall.dialSetAngle1 d.inner a1 ∈ (Dial.set_angles d a1 a2).2 ∧
      (LineDial.set_angles d a1 a2).1.angle1 = a1 ∧
      NativeCall.dialSetAngle1 d.inner a1 ∈ (LineDial.set_angles d a1 a2).2 ∧
      (FillDial.set_angles d a1 a2).1.angle1 = a1 ∧
      NativeCall.dialSetAngle1 d.inner a1 ∈ (FillDial.set_angles d a1 a2).2) ∧
    (360 < a1 →
      (Dial.set_angles d a1 a2).1.angle1 = d.angle1 ∧
      (∀ p a : Nat, NativeCall.dialSetAngle1 p a ∉ (Dial.set_angles d a1 a2).2) ∧
      (LineDial.set_angles d a1 a2).1.angle1 = d.angle1 ∧
      (∀ p a : Nat, NativeCall.dialSetAngle1 p a ∉ (LineDial.set_angles d a1 a2).2) ∧
      (FillDial.set_angles d a1 a2).1.angle1 = d.angle1 ∧
      (∀ p a : Nat, NativeCall.dialSetAngle1 p a ∉ (FillDial.set_angles d a1 a2).2)) ∧
    (a2 ≤ 360 →
      (Dial.set_angles d a1 a2).1.angle2 = a2 ∧
      NativeCall.dialSetAngle2 d.inner a2 ∈ (Dial.set_angles d a1 a2).2 ∧
      (LineDial.set_angles d a1 a2).1.angle2 = a2 ∧
      NativeCall.dialSetAngle2 d.inner a2 ∈ (LineDial.set_angles d a1 a2).2 ∧
      (FillDial.set_angles d a1 a2).1.angle2 = a2 ∧
      NativeCall.dialSetAngle2 d.inner a2 ∈ (FillDial.set_angles d a1 a2).2) ∧
    (360 < a2 →
      (Dial.set_angles d a1 a2).1.angle2 = d.angle2 ∧
      (∀ p a : Nat, NativeCall.dialSetAngle2 p a ∉ (Dial.set_angles d a1 a2).2) ∧
      (LineDial.set_angles d a1 a2).1.angle2 = d.angle2 ∧
      (∀ p a : Nat, NativeCall.dialSetAngle2 p a ∉ (LineDial.set_angles d a1 a2).2) ∧
      (FillDial.set_angles d a1 a2).1.angle2 = d.angle2 ∧
      (∀ p a : Nat, NativeCall.dialSetAngle2 p a ∉ (FillDial.set_angles d a1 a2).2)) := by
  by_cases h1 : a1 ≤ 360 <;> by_cases h2 : a2 ≤ 360 <;>
    refine ⟨fun ha => ?_, fun ha => ?_, fun ha => ?_, fun ha => ?_⟩ <;>
    first
      | exact absurd ha (by omega)
      | simp [Dial.set_angles, LineDial.set_angles, FillDial.set_angles, h1, h2]

/-- Witness for C10 at a live dial with both components in and out of
range. -/
theorem c10_dial_angle_guard_360_witness :
    (Dial.set_angles (DialHandle.mk 5 false 10 20) 90 400).1.angle1 = 90 ∧
    (Dial.set_angles (DialHandle.mk 5 false 10 20) 90 400).1.angle2 = 20 ∧
    (∀ p a : Nat,
      NativeCall.dialSetAngle2 p a ∉ (Dial.set_angles (DialHandle.mk 5 false 10 20) 90 400).2) :=
  ⟨((c10_dial_angle_guard_360 (DialHandle.mk 5 false 10 20) 90 400).1 (by decide)).1,
   ((c10_dial_angle_guard_360 (DialHandle.mk 5 false 10 20) 90 400).2.2.2 (by decide)).1,
   ((c10_dial_angle_guard_360 (DialHandle.mk 5 false 10 20) 90 400).2.2.2 (by decide)).2.1⟩

end FltkSpec
